import Mathlib

/-!
Shallow embedding of the DHIS2 TEI transfer plugin
(`src/.d2/shell/src/D2App/components/TransferModal.tsx`).

The component is modelled as:
 - a `SessionState` record mirroring the React state hooks of `TransferModal`;
 - pure functions `destinationOuId`, `isSameOrgUnit`, `isTransferEnabled`
   transcribing the derived values of the component;
 - `getValidationMessage` and `isUnknownParamError` transcribing the error
   mapping and classification helpers;
 - `handleTransfer`, the transfer executor, as a function from the session
   state and an environment of remote-call outcomes to the final session
   state plus the ordered list of remote effects it issued;
 - `searchStep`, a step function for the debounced org-unit search effect,
   with a generation counter standing for the per-effect liveness flag
   (`isActive`) that React's effect cleanup discipline provides.
-/

namespace TeiTransfer

/-- Org unit as fetched remotely (`OrgUnit` type in the source). -/
structure OrgUnit where
  id : String
  displayName : String
  path : Option String := none
deriving Repr, DecidableEq

/-- Event under an enrollment (nested in the `TrackedEntity` type). -/
structure Event where
  event : String
  program : Option String := none
  programStage : Option String := none
  orgUnit : Option String := none
  status : Option String := none
  occurredAt : Option String := none
  scheduledAt : Option String := none
deriving Repr, DecidableEq

/-- Enrollment of a tracked entity (nested in the `TrackedEntity` type). -/
structure Enrollment where
  enrollment : String
  program : String
  orgUnit : Option String := none
  status : Option String := none
  occurredAt : Option String := none
  enrolledAt : Option String := none
  events : List Event := []
deriving Repr, DecidableEq

/-- Tracked entity (case) as re-fetched by the executor. -/
structure TrackedEntity where
  trackedEntity : String
  trackedEntityType : Option String := none
  orgUnit : Option String := none
  enrollments : List Enrollment := []
deriving Repr, DecidableEq

/-- Structured error from the data engine: an optional top-level `message`,
and an optional HTTP response with `status` and a response-body `message`
(the fields `handleTransfer` and `isUnknownParamError` actually read). -/
structure ApiError where
  message : Option String := none
  responseStatus : Option Nat := none
  responseMessage : Option String := none
deriving Repr, DecidableEq

/-- `getValidationMessage`: prefer the server-supplied response message,
fall back to the error's own message, else a generic text.  JavaScript
truthiness means the empty string falls through, hence the `!= ""` tests. -/
def getValidationMessage (e : ApiError) : String :=
  let responseMessage := e.responseMessage.getD ""
  let message := e.message.getD ""
  if responseMessage != "" then responseMessage
  else if message != "" then message
  else "Transfer failed."

/-- JavaScript `s.toLowerCase()` (over the ASCII range the source compares). -/
def strToLower (s : String) : String :=
  String.mk (s.data.map Char.toLower)

/-- JavaScript `s.trim()`: strip whitespace from both ends. -/
def strTrim (s : String) : String :=
  String.mk (((s.data.dropWhile Char.isWhitespace).reverse.dropWhile
    Char.isWhitespace).reverse)

/-- Does the list of characters start with the pattern?  (Helper for the
JavaScript `String.prototype.includes` used by `isUnknownParamError`.) -/
def charsStartWith : List Char → List Char → Bool
  | [], _ => true
  | _ :: _, [] => false
  | p :: ps, c :: cs => p == c && charsStartWith ps cs

/-- Does the list of characters contain the pattern as a contiguous run? -/
def charsContain (pat : List Char) : List Char → Bool
  | [] => charsStartWith pat []
  | c :: cs => charsStartWith pat (c :: cs) || charsContain pat cs

/-- JavaScript `s.includes(pat)`: substring containment. -/
def strIncludes (s pat : String) : Bool :=
  charsContain pat.toList s.toList

/-- `isUnknownParamError`: true when the error carries an HTTP status
(absent or `0` is falsy in JavaScript) in the 4xx range and its mapped
message, lowercased, contains "unknown parameter" or contains both
"parameter" and the lowercased parameter name. -/
def isUnknownParamError (e : ApiError) (paramName : String) : Bool :=
  match e.responseStatus with
  | none => false
  | some status =>
    if status == 0 || status < 400 || 500 ≤ status then false
    else
      let message := strToLower (getValidationMessage e)
      strIncludes message "unknown parameter" ||
        (strIncludes message "parameter" && strIncludes message (strToLower paramName))

/-- Configuration flag (`UPDATE_ENROLLMENT_ORGUNIT` constant): enrollment
location cascade is disabled by default. -/
def UPDATE_ENROLLMENT_ORGUNIT : Bool := false

/-- Minimum search length threshold (`MIN_SEARCH_LENGTH` constant). -/
def MIN_SEARCH_LENGTH : Nat := 2

/-- The nested field list used when re-fetching the case (`trackerFields`). -/
def trackerFields : String :=
  "trackedEntityType,orgUnit,enrollments[enrollment,program,orgUnit,status,occurredAt,enrolledAt,events[event,program,programStage,orgUnit,status,occurredAt,scheduledAt]]"

/-- The React state of `TransferModal` relevant to the orchestration. -/
structure SessionState where
  teiId : String := ""
  programId : String := ""
  selectedOuId : Option String := none
  selectedPaths : List String := []
  currentOuId : String := ""
  currentOuName : Option String := none
  isSubmitting : Bool := false
  statusMessage : Option String := none
  errorMessage : Option String := none
  searchText : String := ""
  searchResults : List OrgUnit := []
  searchError : Option String := none
  isSearching : Bool := false
deriving Repr, DecidableEq

/-- `destinationOuId = selectedOuId?.trim() ?? ''`. -/
def destinationOuId (s : SessionState) : String :=
  match s.selectedOuId with
  | none => ""
  | some v => strTrim v

/-- `isSameOrgUnit = Boolean(currentOuId && destinationOuId && currentOuId === destinationOuId)`. -/
def isSameOrgUnit (s : SessionState) : Bool :=
  s.currentOuId != "" && destinationOuId s != "" && s.currentOuId == destinationOuId s

/-- `isTransferEnabled = Boolean(teiId && programId && destinationOuId && !isSameOrgUnit && !isSubmitting)`. -/
def isTransferEnabled (s : SessionState) : Bool :=
  s.teiId != "" && s.programId != "" && destinationOuId s != "" &&
    !isSameOrgUnit s && !s.isSubmitting

/-- The two case-identifier parameter names tried by `attemptTransfer`. -/
inductive ParamVariant
  | trackedEntity
  | trackedEntityInstance
deriving Repr, DecidableEq

/-- Query-string parameters of the ownership-transfer mutation. -/
structure OwnershipParams where
  caseParam : ParamVariant
  caseId : String
  program : String
  ou : String
deriving Repr, DecidableEq

/-- Body (`data`) of the ownership-transfer mutation. -/
structure OwnershipBody where
  trackedEntity : String
  program : String
  orgUnit : String
deriving Repr, DecidableEq

/-- Payload of the (flag-gated) enrollment cascade import. -/
structure EnrollmentPayload where
  enrollment : String
  program : String
  trackedEntity : String
  orgUnit : String
deriving Repr, DecidableEq

/-- One entry of the batched event cascade import, as built in
`handleTransfer` from an `Event` of the re-fetched case. -/
structure EventPayload where
  event : String
  program : Option String
  programStage : Option String
  enrollment : String
  orgUnit : String
  status : Option String
  occurredAt : Option String
  scheduledAt : Option String
deriving Repr, DecidableEq

/-- Remote effects issued by the transfer executor, in order. -/
inductive Effect
  | mutateOwnership (resource : String) (mutType : String)
      (params : OwnershipParams) (body : OwnershipBody)
  | queryTei (resource : String) (fields : String)
  | mutateEnrollmentImport (resource : String) (mutType : String)
      (payload : EnrollmentPayload) (asyncFlag : Bool) (importStrategy : String)
  | mutateEventImport (resource : String) (mutType : String)
      (payload : List EventPayload) (asyncFlag : Bool) (importStrategy : String)
deriving Repr, DecidableEq

deriving instance DecidableEq for Except

/-- Outcomes of the remote calls `handleTransfer` can make, supplied as an
oracle so the executor is a pure function of them. -/
structure TransferEnv where
  primaryOutcome : Except ApiError Unit
  retryOutcome : Except ApiError Unit
  refetchOutcome : Except ApiError TrackedEntity
  enrollmentImportOutcome : Except ApiError Unit
  eventImportOutcome : Except ApiError Unit
deriving Repr, DecidableEq

/-- `attemptTransfer(paramName)`: the ownership-transfer mutation with the
case id under the given parameter name and the triple mirrored in the body. -/
def attemptTransfer (teiId programId destinationId : String)
    (paramName : ParamVariant) : Effect :=
  Effect.mutateOwnership "tracker/ownership/transfer" "update"
    { caseParam := paramName, caseId := teiId, program := programId, ou := destinationId }
    { trackedEntity := teiId, program := programId, orgUnit := destinationId }

/-- Success exit of `handleTransfer`: status message set, `finally` clears
the submitting flag.  (`errorMessage` was cleared on entry.) -/
def transferSuccess (s : SessionState) : SessionState :=
  { s with statusMessage := some "Transfer completed.", errorMessage := none,
           isSubmitting := false }

/-- Failure exit of `handleTransfer`: the caught error is mapped through
`getValidationMessage`; `finally` clears the submitting flag. -/
def transferFailed (s : SessionState) (e : ApiError) : SessionState :=
  { s with statusMessage := none, errorMessage := some (getValidationMessage e),
           isSubmitting := false }

/-- Event-cascade tail of `handleTransfer`: map every event of the located
enrollment to an update payload with `orgUnit` overridden to the
destination, and issue a single batched synchronous UPDATE import when the
list is non-empty. -/
def cascadeEvents (s : SessionState) (d : String) (env : TransferEnv)
    (enrollmentToUpdate : Option Enrollment) (effs : List Effect) :
    SessionState × List Effect :=
  let eventsToUpdate :=
    match enrollmentToUpdate with
    | some enr => enr.events.map fun ev =>
        ({ event := ev.event, program := ev.program, programStage := ev.programStage,
           enrollment := enr.enrollment, orgUnit := d, status := ev.status,
           occurredAt := ev.occurredAt, scheduledAt := ev.scheduledAt } : EventPayload)
    | none => []
  if eventsToUpdate.length > 0 then
    let effs := effs ++ [Effect.mutateEventImport "tracker" "create" eventsToUpdate false "UPDATE"]
    match env.eventImportOutcome with
    | Except.error e => (transferFailed s e, effs)
    | Except.ok _ => (transferSuccess s, effs)
  else (transferSuccess s, effs)

/-- Flag-gated enrollment cascade of `handleTransfer`
(`UPDATE_ENROLLMENT_ORGUNIT && enrollmentToUpdate?.enrollment`), then the
event cascade. -/
def cascadeEnrollment (s : SessionState) (d : String) (env : TransferEnv)
    (trackedEntity : TrackedEntity) (enrollmentToUpdate : Option Enrollment)
    (effs : List Effect) : SessionState × List Effect :=
  let gate := UPDATE_ENROLLMENT_ORGUNIT &&
    (match enrollmentToUpdate with
     | some enr => enr.enrollment != ""
     | none => false)
  if gate then
    match enrollmentToUpdate with
    | some enr =>
      let effs := effs ++ [Effect.mutateEnrollmentImport "tracker" "create"
        { enrollment := enr.enrollment, program := s.programId,
          trackedEntity := if trackedEntity.trackedEntity != "" then
              trackedEntity.trackedEntity else s.teiId,
          orgUnit := d } false "UPDATE"]
      match env.enrollmentImportOutcome with
      | Except.error e => (transferFailed s e, effs)
      | Except.ok _ => cascadeEvents s d env enrollmentToUpdate effs
    | none => cascadeEvents s d env enrollmentToUpdate effs
  else cascadeEvents s d env enrollmentToUpdate effs

/-- Steps 3-5 of the executor, after the ownership transfer committed:
re-fetch the case, locate the enrollment whose program matches the program
context, then cascade. -/
def cascadeAfterPrimary (s : SessionState) (d : String) (env : TransferEnv)
    (effs : List Effect) : SessionState × List Effect :=
  let effs := effs ++ [Effect.queryTei ("tracker/trackedEntities/" ++ s.teiId) trackerFields]
  match env.refetchOutcome with
  | Except.error e => (transferFailed s e, effs)
  | Except.ok trackedEntity =>
    let enrollmentToUpdate :=
      trackedEntity.enrollments.find? fun enrollment => enrollment.program == s.programId
    cascadeEnrollment s d env trackedEntity enrollmentToUpdate effs

/-- `handleTransfer`: guard, enter submitting and clear messages, primary
mutation with the `trackedEntity` parameter name, single fallback retry with
`trackedEntityInstance` exactly when `isUnknownParamError` classifies the
failure, then the cascade.  Returns the final session state and the ordered
effects issued. -/
def handleTransfer (s : SessionState) (env : TransferEnv) :
    SessionState × List Effect :=
  if s.teiId == "" || s.programId == "" || destinationOuId s == "" || isSameOrgUnit s then
    (s, [])
  else
    let s := { s with isSubmitting := true, statusMessage := none, errorMessage := none }
    let d := destinationOuId s
    let effs := [attemptTransfer s.teiId s.programId d ParamVariant.trackedEntity]
    match env.primaryOutcome with
    | Except.ok _ => cascadeAfterPrimary s d env effs
    | Except.error e =>
      if isUnknownParamError e "trackedEntity" then
        let effs := effs ++
          [attemptTransfer s.teiId s.programId d ParamVariant.trackedEntityInstance]
        match env.retryOutcome with
        | Except.ok _ => cascadeAfterPrimary s d env effs
        | Except.error e2 => (transferFailed s e2, effs)
      else (transferFailed s e, effs)

/-- The transfer button: its `onClick` is `handleTransfer` and it is
`disabled` exactly when `isTransferEnabled` is false; a disabled button
never fires its click handler. -/
def transferButtonClick (s : SessionState) (env : TransferEnv) :
    SessionState × List Effect :=
  if isTransferEnabled s then handleTransfer s env else (s, [])

/-- The ownership-transfer mutations of an effect trace. -/
def ownershipEffects (effs : List Effect) : List Effect :=
  effs.filter fun eff =>
    match eff with
    | Effect.mutateOwnership _ _ _ _ => true
    | _ => false

/-- The batched event-import mutations of an effect trace. -/
def eventImportEffects (effs : List Effect) : List Effect :=
  effs.filter fun eff =>
    match eff with
    | Effect.mutateEventImport _ _ _ _ _ => true
    | _ => false

/-- `setSelectedOuId` state setter. -/
def setSelectedOuIdVal (s : SessionState) (v : Option String) : SessionState :=
  { s with selectedOuId := v }

/-- `setSelectedPaths` state setter. -/
def setSelectedPathsVal (s : SessionState) (v : List String) : SessionState :=
  { s with selectedPaths := v }

/-- `setSearchText` state setter. -/
def setSearchTextVal (s : SessionState) (v : String) : SessionState :=
  { s with searchText := v }

/-- `setSearchResults` state setter. -/
def setSearchResultsVal (s : SessionState) (v : List OrgUnit) : SessionState :=
  { s with searchResults := v }

/-- The `onClick` handler of a search-result row, in source order:
`setSelectedOuId(orgUnit.id); setSelectedPaths([orgUnit.id]);
setSearchText(orgUnit.displayName); setSearchResults([])`. -/
def pickSearchResult (s : SessionState) (orgUnit : OrgUnit) : SessionState :=
  setSearchResultsVal
    (setSearchTextVal
      (setSelectedPathsVal
        (setSelectedOuIdVal s (some orgUnit.id))
        [orgUnit.id])
      orgUnit.displayName)
    []

/-- Search state of the debounced search effect: the result/error/busy
fields of the component plus a generation counter.  `currentGen` counts the
remote search requests issued so far; `activeGen` is `some g` exactly while
the effect run that issued request `g` has not been cleaned up (its
`isActive` flag is still true). -/
structure SearchState where
  currentGen : Nat := 0
  activeGen : Option Nat := none
  searchResults : List OrgUnit := []
  searchError : Option String := none
  isSearching : Bool := false
deriving Repr, DecidableEq

/-- Outcome of a search request: `ok` carries the parsed organisation-unit
list when the response held an array (`none` models a non-array response);
`fail` is a transport failure. -/
inductive SearchOutcome
  | ok (results : Option (List OrgUnit))
  | fail
deriving Repr, DecidableEq

/-- Observable events of the search effect's lifetime: the debounced query
changing (React re-runs the effect after running the previous run's
cleanup), the component unmounting (cleanup only), and an issued request
resolving. -/
inductive SearchAction
  | newQuery (q : String)
  | teardown
  | resolve (gen : Nat) (outcome : SearchOutcome)
deriving Repr, DecidableEq

/-- One step of the search effect, transcribing the effect body at
`useEffect([debouncedSearchText])`: cleanup first deactivates the previous
run; below `MIN_SEARCH_LENGTH` the results and error are cleared with no
request issued; otherwise a fresh request (next generation) starts with the
spinner on; a resolution commits only while its own run is still active. -/
def searchStep (s : SearchState) (a : SearchAction) : SearchState :=
  match a with
  | SearchAction.newQuery q =>
    let s0 := { s with activeGen := none }
    if (strTrim q).length < MIN_SEARCH_LENGTH then
      { s0 with searchResults := [], searchError := none, isSearching := false }
    else
      { s0 with currentGen := s0.currentGen + 1, activeGen := some (s0.currentGen + 1),
                isSearching := true, searchError := none }
  | SearchAction.teardown => { s with activeGen := none }
  | SearchAction.resolve gen outcome =>
    if s.activeGen == some gen then
      match outcome with
      | SearchOutcome.ok results =>
        { s with searchResults := results.getD [], isSearching := false }
      | SearchOutcome.fail =>
        { s with searchError := some "Failed to search org units.",
                 searchResults := [], isSearching := false }
    else s

/-- Run a sequence of search actions. -/
def searchRun (s : SearchState) : List SearchAction → SearchState
  | [] => s
  | a :: rest => searchRun (searchStep s a) rest

/-- Invariant of the search model: only the most recently issued request
can be active. -/
def searchInv (s : SearchState) : Bool :=
  match s.activeGen with
  | none => true
  | some g => g == s.currentGen

/-- Actions that end the lifetime of the in-flight request: the owning
query changed, or the session was torn down. -/
def isSupersede : SearchAction → Bool
  | SearchAction.newQuery _ => true
  | SearchAction.teardown => true
  | SearchAction.resolve _ _ => false

/-- The retry condition of claim C2, written from the spec's words: the
failure carries an HTTP status in [400,500) and its mapped message text,
case-insensitively, contains "unknown parameter" or contains both
"parameter" and the literal parameter name "trackedEntity". -/
def specUnknownParamRetry (e : ApiError) : Bool :=
  (match e.responseStatus with
   | some st => decide (400 ≤ st ∧ st < 500)
   | none => false) &&
  (let m := strToLower (getValidationMessage e)
   strIncludes m "unknown parameter" ||
     (strIncludes m "parameter" && strIncludes m "trackedentity"))

/-- The first failure among the post-primary steps of `handleTransfer`, as
a function of the environment: the case re-fetch, then (the enrollment
cascade being disabled) the batched event import when the located
enrollment has events. -/
def cascadeFailure (programId : String) (env : TransferEnv) : Option ApiError :=
  match env.refetchOutcome with
  | Except.error e => some e
  | Except.ok te =>
    match te.enrollments.find? (fun enrollment => enrollment.program == programId) with
    | none => none
    | some enr =>
      if enr.events.length > 0 then
        match env.eventImportOutcome with
        | Except.error e => some e
        | Except.ok _ => none
      else none

/-- A request generation that can no longer commit: it is not past the
generation counter (it was really issued) and its run is not the active
one. -/
def staleFor (g : Nat) (s : SearchState) : Prop :=
  g ≤ s.currentGen ∧ s.activeGen ≠ some g

/-- Search state with request 1 in flight, used to witness the
stale-suppression theorem. -/
def staleWitnessStart : SearchState :=
  { currentGen := 1, activeGen := some 1, isSearching := true }

/-- A later query change that supersedes the in-flight request. -/
def staleWitnessActs : List SearchAction := [SearchAction.newQuery "abc"]

/-- Concrete session used by the executor witnesses: case "T1" in program
"P1", currently at "A", destination "B". -/
def witnessSession : SessionState :=
  { teiId := "T1", programId := "P1", selectedOuId := some "B", currentOuId := "A" }

/-- Concrete unknown-parameter failure (HTTP 400). -/
def retryWitnessError : ApiError :=
  { responseStatus := some 400,
    responseMessage := some "Unknown parameter trackedEntity" }

/-- Environment whose primary mutation fails with the unknown-parameter
error and whose fallback succeeds against a case with no enrollments. -/
def retryWitnessEnv : TransferEnv :=
  { primaryOutcome := Except.error retryWitnessError, retryOutcome := Except.ok (),
    refetchOutcome := Except.ok { trackedEntity := "T1" },
    enrollmentImportOutcome := Except.ok (), eventImportOutcome := Except.ok () }

/-- Concrete failure of the case re-fetch. -/
def refetchWitnessError : ApiError := { message := some "refetch failed" }

/-- Environment whose primary mutation succeeds and whose case re-fetch
then fails. -/
def refetchFailEnv : TransferEnv :=
  { primaryOutcome := Except.ok (), retryOutcome := Except.ok (),
    refetchOutcome := Except.error refetchWitnessError,
    enrollmentImportOutcome := Except.ok (), eventImportOutcome := Except.ok () }

/-- Concrete re-fetched case: one enrollment for program "P1" with two
events. -/
def cascadeWitnessTe : TrackedEntity :=
  { trackedEntity := "T1", orgUnit := some "B",
    enrollments := [
      { enrollment := "E1", program := "P1",
        events := [
          { event := "ev1", program := some "P1", programStage := some "PS1",
            orgUnit := some "A", status := some "ACTIVE",
            occurredAt := some "2024-01-01", scheduledAt := none },
          { event := "ev2", status := some "SCHEDULE",
            scheduledAt := some "2024-02-01" } ] } ] }

/-- Environment where every remote call succeeds and the re-fetch returns
`cascadeWitnessTe`. -/
def cascadeWitnessEnv : TransferEnv :=
  { primaryOutcome := Except.ok (), retryOutcome := Except.ok (),
    refetchOutcome := Except.ok cascadeWitnessTe,
    enrollmentImportOutcome := Except.ok (), eventImportOutcome := Except.ok () }

/-- Filtering ownership mutations distributes over trace concatenation. -/
lemma ownershipEffects_append (xs ys : List Effect) :
    ownershipEffects (xs ++ ys) = ownershipEffects xs ++ ownershipEffects ys := by
  simp [ownershipEffects, List.filter_append]

/-- Filtering event imports distributes over trace concatenation. -/
lemma eventImportEffects_append (xs ys : List Effect) :
    eventImportEffects (xs ++ ys) = eventImportEffects xs ++ eventImportEffects ys := by
  simp [eventImportEffects, List.filter_append]

/-- The event cascade issues no ownership mutation. -/
lemma ownershipEffects_cascadeEvents (s : SessionState) (d : String)
    (env : TransferEnv) (enrollmentToUpdate : Option Enrollment) (effs : List Effect) :
    ownershipEffects (cascadeEvents s d env enrollmentToUpdate effs).2 =
      ownershipEffects effs := by
  unfold cascadeEvents
  cases enrollmentToUpdate with
  | none => rfl
  | some enr =>
    by_cases hlen : 0 < enr.events.length
    · cases henv : env.eventImportOutcome <;>
        simp [henv, hlen, ownershipEffects, List.filter_append, List.filter]
    · simp [hlen, ownershipEffects]

/-- The enrollment cascade issues no ownership mutation. -/
lemma ownershipEffects_cascadeEnrollment (s : SessionState) (d : String)
    (env : TransferEnv) (trackedEntity : TrackedEntity)
    (enrollmentToUpdate : Option Enrollment) (effs : List Effect) :
    ownershipEffects (cascadeEnrollment s d env trackedEntity enrollmentToUpdate effs).2 =
      ownershipEffects effs := by
  unfold cascadeEnrollment
  simp only [UPDATE_ENROLLMENT_ORGUNIT, Bool.false_and, Bool.false_eq_true, if_false]
  exact ownershipEffects_cascadeEvents ..

/-- The whole post-primary cascade issues no ownership mutation. -/
lemma ownershipEffects_cascadeAfterPrimary (s : SessionState) (d : String)
    (env : TransferEnv) (effs : List Effect) :
    ownershipEffects (cascadeAfterPrimary s d env effs).2 = ownershipEffects effs := by
  unfold cascadeAfterPrimary
  cases henv : env.refetchOutcome with
  | error e => simp [ownershipEffects_append, ownershipEffects]
  | ok te =>
    rw [ownershipEffects_cascadeEnrollment]
    simp [ownershipEffects_append, ownershipEffects]

/-- The code's unknown-parameter classifier, applied to the literal
parameter name "trackedEntity", agrees with the spec-worded retry
condition. -/
lemma isUnknownParamError_eq_spec (e : ApiError) :
    isUnknownParamError e "trackedEntity" = specUnknownParamRetry e := by
  have hlow : strToLower "trackedEntity" = "trackedentity" := by decide
  unfold isUnknownParamError specUnknownParamRetry
  cases hst : e.responseStatus with
  | none => rfl
  | some st =>
    by_cases h4 : st < 400
    · have hnot : ¬ (400 ≤ st ∧ st < 500) := by omega
      simp [h4, hnot]
    · by_cases h5 : 500 ≤ st
      · have hnot : ¬ (400 ≤ st ∧ st < 500) := by omega
        simp [h4, h5, hnot]
      · have h0 : ¬ (st = 0) := by omega
        have hin : 400 ≤ st ∧ st < 500 := by omega
        simp [h4, h5, h0, hin, hlow]

/-- The guard of `handleTransfer` does not fire when the preconditions
hold. -/
lemma handleTransfer_guard_false (s : SessionState) (h1 : s.teiId ≠ "")
    (h2 : s.programId ≠ "") (h3 : destinationOuId s ≠ "")
    (h4 : isSameOrgUnit s = false) :
    (s.teiId == "" || s.programId == "" || destinationOuId s == "" ||
      isSameOrgUnit s) = false := by
  have e1 : (s.teiId == "") = false := beq_eq_false_iff_ne.mpr h1
  have e2 : (s.programId == "") = false := beq_eq_false_iff_ne.mpr h2
  have e3 : (destinationOuId s == "") = false := beq_eq_false_iff_ne.mpr h3
  rw [e1, e2, e3, h4]
  rfl

/-- C2: on a primary-transfer failure the executor issues the fallback
ownership mutation with the `trackedEntityInstance` parameter name exactly
once if and only if the failure carries an HTTP status in [400,500) and its
message text, case-insensitively, contains "unknown parameter" or both
"parameter" and "trackedEntity"; any other failure retries nothing, and the
retry's own outcome never triggers further ownership mutations. -/
theorem primary_failure_retry_policy (s : SessionState) (env : TransferEnv)
    (e : ApiError) (h1 : s.teiId ≠ "") (h2 : s.programId ≠ "")
    (h3 : destinationOuId s ≠ "") (h4 : isSameOrgUnit s = false)
    (hp : env.primaryOutcome = Except.error e) :
    ownershipEffects (handleTransfer s env).2 =
      if specUnknownParamRetry e then
        [attemptTransfer s.teiId s.programId (destinationOuId s)
           ParamVariant.trackedEntity,
         attemptTransfer s.teiId s.programId (destinationOuId s)
           ParamVariant.trackedEntityInstance]
      else
        [attemptTransfer s.teiId s.programId (destinationOuId s)
           ParamVariant.trackedEntity] := by
  unfold handleTransfer
  rw [handleTransfer_guard_false s h1 h2 h3 h4]
  simp only [Bool.false_eq_true, if_false, hp, isUnknownParamError_eq_spec]
  by_cases hr : specUnknownParamRetry e = true
  · simp only [hr, if_true]
    cases hro : env.retryOutcome with
    | ok u =>
      rw [ownershipEffects_cascadeAfterPrimary]
      simp [ownershipEffects, attemptTransfer, destinationOuId, List.filter]
    | error e2 =>
      simp [ownershipEffects, attemptTransfer, destinationOuId, List.filter]
  · have hr0 : specUnknownParamRetry e = false := by
      cases h : specUnknownParamRetry e
      · rfl
      · exact absurd h hr
    simp only [hr0, Bool.false_eq_true, if_false]
    simp [ownershipEffects, attemptTransfer, destinationOuId, List.filter]

/-- Witness for C2: a 400 response with message "Unknown parameter
trackedEntity" triggers exactly one fallback mutation with the
`trackedEntityInstance` parameter name. -/
theorem primary_failure_retry_policy_witness :
    (witnessSession.teiId ≠ "" ∧ witnessSession.programId ≠ "" ∧
     destinationOuId witnessSession ≠ "" ∧ isSameOrgUnit witnessSession = false ∧
     retryWitnessEnv.primaryOutcome = Except.error retryWitnessError) ∧
    ownershipEffects (handleTransfer witnessSession retryWitnessEnv).2 =
      [attemptTransfer "T1" "P1" "B" ParamVariant.trackedEntity,
       attemptTransfer "T1" "P1" "B" ParamVariant.trackedEntityInstance] := by
  refine ⟨⟨by decide, by decide, by decide, by decide, rfl⟩, ?_⟩
  rw [primary_failure_retry_policy witnessSession retryWitnessEnv retryWitnessError
    (by decide) (by decide) (by decide) (by decide) rfl]
  decide

/-- When the environment makes some post-primary step fail, the cascade
ends in the failed state carrying that failure's mapped message. -/
lemma cascadeAfterPrimary_fail (s : SessionState) (d : String) (env : TransferEnv)
    (e : ApiError) (effs : List Effect)
    (hf : cascadeFailure s.programId env = some e) :
    (cascadeAfterPrimary s d env effs).1 = transferFailed s e := by
  unfold cascadeAfterPrimary cascadeEnrollment cascadeFailure at *
  cases hr : env.refetchOutcome with
  | error e2 =>
    simp only [hr] at hf ⊢
    injection hf with h
    subst h
    rfl
  | ok te =>
    simp only [hr] at hf ⊢
    simp only [UPDATE_ENROLLMENT_ORGUNIT, Bool.false_and, Bool.false_eq_true, if_false]
    cases hfind : te.enrollments.find? (fun enrollment => enrollment.program == s.programId) with
    | none => simp only [hfind] at hf; cases hf
    | some enr =>
      simp only [hfind] at hf
      unfold cascadeEvents
      simp only [List.length_map]
      by_cases hlen : enr.events.length > 0
      · simp only [if_pos hlen] at hf ⊢
        cases hev : env.eventImportOutcome with
        | error e3 =>
          simp only [hev] at hf
          injection hf with h
          subst h
          rfl
        | ok u => simp only [hev] at hf; cases hf
      · simp only [if_neg hlen] at hf; cases hf

/-- The trace of the post-primary cascade when the re-fetch succeeds: the
re-fetch query, then (the enrollment cascade being disabled) one batched
event import exactly when the located enrollment has events, whatever the
import's outcome. -/
lemma cascadeAfterPrimary_trace (s : SessionState) (d : String) (env : TransferEnv)
    (te : TrackedEntity) (effs : List Effect)
    (hr : env.refetchOutcome = Except.ok te) :
    (cascadeAfterPrimary s d env effs).2 =
      effs ++ [Effect.queryTei ("tracker/trackedEntities/" ++ s.teiId) trackerFields] ++
      (match te.enrollments.find? (fun enrollment => enrollment.program == s.programId) with
       | none => []
       | some enr =>
         if enr.events.length > 0 then
           [Effect.mutateEventImport "tracker" "create"
             (enr.events.map fun ev =>
               ({ event := ev.event, program := ev.program,
                  programStage := ev.programStage, enrollment := enr.enrollment,
                  orgUnit := d, status := ev.status, occurredAt := ev.occurredAt,
                  scheduledAt := ev.scheduledAt } : EventPayload))
             false "UPDATE"]
         else []) := by
  unfold cascadeAfterPrimary cascadeEnrollment
  simp only [hr]
  simp only [UPDATE_ENROLLMENT_ORGUNIT, Bool.false_and, Bool.false_eq_true, if_false]
  unfold cascadeEvents
  simp only [List.length_map]
  cases hfind : te.enrollments.find? (fun enrollment => enrollment.program == s.programId) with
  | none => simp
  | some enr =>
    by_cases hlen : enr.events.length > 0
    · cases hev : env.eventImportOutcome <;> simp [hev, hlen]
    · simp [hlen]

/-- C3: if the primary ownership transfer succeeds and a later step (case
re-fetch or event cascade) fails, the flow ends Failed with that failure's
mapped message, the submitting flag cleared, and exactly the one original
ownership mutation in the trace — never re-invoked, never rolled back. -/
theorem cascade_failure_terminal (s : SessionState) (env : TransferEnv)
    (e : ApiError) (h1 : s.teiId ≠ "") (h2 : s.programId ≠ "")
    (h3 : destinationOuId s ≠ "") (h4 : isSameOrgUnit s = false)
    (hp : env.primaryOutcome = Except.ok ())
    (hf : cascadeFailure s.programId env = some e) :
    (handleTransfer s env).1.errorMessage = some (getValidationMessage e) ∧
    (handleTransfer s env).1.statusMessage = none ∧
    (handleTransfer s env).1.isSubmitting = false ∧
    ownershipEffects (handleTransfer s env).2 =
      [attemptTransfer s.teiId s.programId (destinationOuId s)
         ParamVariant.trackedEntity] := by
  unfold handleTransfer
  rw [handleTransfer_guard_false s h1 h2 h3 h4]
  simp only [Bool.false_eq_true, if_false, hp]
  rw [cascadeAfterPrimary_fail
    { s with isSubmitting := true, statusMessage := none, errorMessage := none }
    _ env e _ hf]
  refine ⟨rfl, rfl, rfl, ?_⟩
  rw [ownershipEffects_cascadeAfterPrimary]
  simp [ownershipEffects, attemptTransfer, destinationOuId, List.filter]

/-- Witness for C3: primary transfer succeeds, the case re-fetch fails;
the flow reports the mapped message and the trace holds one ownership
mutation. -/
theorem cascade_failure_terminal_witness :
    (witnessSession.teiId ≠ "" ∧ witnessSession.programId ≠ "" ∧
     destinationOuId witnessSession ≠ "" ∧ isSameOrgUnit witnessSession = false ∧
     refetchFailEnv.primaryOutcome = Except.ok () ∧
     cascadeFailure witnessSession.programId refetchFailEnv =
       some refetchWitnessError) ∧
    ((handleTransfer witnessSession refetchFailEnv).1.errorMessage =
       some (getValidationMessage refetchWitnessError) ∧
     (handleTransfer witnessSession refetchFailEnv).1.statusMessage = none ∧
     (handleTransfer witnessSession refetchFailEnv).1.isSubmitting = false ∧
     ownershipEffects (handleTransfer witnessSession refetchFailEnv).2 =
       [attemptTransfer witnessSession.teiId witnessSession.programId
          (destinationOuId witnessSession) ParamVariant.trackedEntity]) :=
  ⟨⟨by decide, by decide, by decide, by decide, rfl, by decide⟩,
   cascade_failure_terminal witnessSession refetchFailEnv refetchWitnessError
     (by decide) (by decide) (by decide) (by decide) rfl (by decide)⟩

/-- C4: after a successful primary transfer the executor re-fetches the
case; for the enrollment whose program matches the program context it maps
every event to an update payload with the org unit overridden to the
destination, and issues exactly one batched synchronous UPDATE import when
that list is non-empty and none when it is empty (or no enrollment
matches). -/
theorem event_cascade_batched (s : SessionState) (env : TransferEnv)
    (te : TrackedEntity) (h1 : s.teiId ≠ "") (h2 : s.programId ≠ "")
    (h3 : destinationOuId s ≠ "") (h4 : isSameOrgUnit s = false)
    (hp : env.primaryOutcome = Except.ok ())
    (hr : env.refetchOutcome = Except.ok te) :
    Effect.queryTei ("tracker/trackedEntities/" ++ s.teiId) trackerFields ∈
      (handleTransfer s env).2 ∧
    eventImportEffects (handleTransfer s env).2 =
      (match te.enrollments.find? (fun enrollment => enrollment.program == s.programId) with
       | none => []
       | some enr =>
         if enr.events.length > 0 then
           [Effect.mutateEventImport "tracker" "create"
             (enr.events.map fun ev =>
               ({ event := ev.event, program := ev.program,
                  programStage := ev.programStage, enrollment := enr.enrollment,
                  orgUnit := destinationOuId s, status := ev.status,
                  occurredAt := ev.occurredAt,
                  scheduledAt := ev.scheduledAt } : EventPayload))
             false "UPDATE"]
         else []) := by
  unfold handleTransfer
  rw [handleTransfer_guard_false s h1 h2 h3 h4]
  simp only [Bool.false_eq_true, if_false, hp]
  rw [cascadeAfterPrimary_trace _ _ _ te _ hr]
  constructor
  · simp
  · cases hfind : te.enrollments.find? (fun enrollment => enrollment.program == s.programId) with
    | none => simp [eventImportEffects, attemptTransfer, List.filter]
    | some enr =>
      by_cases hlen : enr.events.length > 0
      · simp [hlen, eventImportEffects, attemptTransfer, List.filter, destinationOuId]
      · simp [hlen, eventImportEffects, attemptTransfer, List.filter]

/-- Witness for C4: a case with one matching enrollment and two events
produces the re-fetch query and exactly one batched import with both
events pointed at the destination. -/
theorem event_cascade_batched_witness :
    (witnessSession.teiId ≠ "" ∧ witnessSession.programId ≠ "" ∧
     destinationOuId witnessSession ≠ "" ∧ isSameOrgUnit witnessSession = false ∧
     cascadeWitnessEnv.primaryOutcome = Except.ok () ∧
     cascadeWitnessEnv.refetchOutcome = Except.ok cascadeWitnessTe) ∧
    (Effect.queryTei ("tracker/trackedEntities/" ++ witnessSession.teiId) trackerFields ∈
       (handleTransfer witnessSession cascadeWitnessEnv).2 ∧
     eventImportEffects (handleTransfer witnessSession cascadeWitnessEnv).2 =
       (match cascadeWitnessTe.enrollments.find?
           (fun enrollment => enrollment.program == witnessSession.programId) with
        | none => []
        | some enr =>
          if enr.events.length > 0 then
            [Effect.mutateEventImport "tracker" "create"
              (enr.events.map fun ev =>
                ({ event := ev.event, program := ev.program,
                   programStage := ev.programStage, enrollment := enr.enrollment,
                   orgUnit := destinationOuId witnessSession, status := ev.status,
                   occurredAt := ev.occurredAt,
                   scheduledAt := ev.scheduledAt } : EventPayload))
              false "UPDATE"]
          else [])) :=
  ⟨⟨by decide, by decide, by decide, by decide, rfl, rfl⟩,
   event_cascade_batched witnessSession cascadeWitnessEnv cascadeWitnessTe
     (by decide) (by decide) (by decide) (by decide) rfl rfl⟩

/-- Every ownership mutation issued by the executor, at most two per run. -/
lemma ownershipEffects_handleTransfer (s : SessionState) (env : TransferEnv) :
    ownershipEffects (handleTransfer s env).2 = [] ∨
    ownershipEffects (handleTransfer s env).2 =
      [attemptTransfer s.teiId s.programId (destinationOuId s)
         ParamVariant.trackedEntity] ∨
    ownershipEffects (handleTransfer s env).2 =
      [attemptTransfer s.teiId s.programId (destinationOuId s)
         ParamVariant.trackedEntity,
       attemptTransfer s.teiId s.programId (destinationOuId s)
         ParamVariant.trackedEntityInstance] := by
  unfold handleTransfer
  by_cases hg : (s.teiId == "" || s.programId == "" || destinationOuId s == "" ||
      isSameOrgUnit s) = true
  · left
    rw [if_pos hg]
    rfl
  · rw [if_neg hg]
    cases hpo : env.primaryOutcome with
    | ok u =>
      right; left
      rw [ownershipEffects_cascadeAfterPrimary]
      simp [ownershipEffects, attemptTransfer, destinationOuId, List.filter]
    | error e =>
      by_cases hu : isUnknownParamError e "trackedEntity" = true
      · right; right
        simp only [hu, if_true]
        cases hro : env.retryOutcome with
        | ok u =>
          rw [ownershipEffects_cascadeAfterPrimary]
          simp [ownershipEffects, attemptTransfer, destinationOuId, List.filter]
        | error e2 =>
          simp [ownershipEffects, attemptTransfer, destinationOuId, List.filter]
      · right; left
        have hu0 : isUnknownParamError e "trackedEntity" = false := by
          cases h : isUnknownParamError e "trackedEntity"
          · rfl
          · exact absurd h hu
        simp only [hu0, Bool.false_eq_true, if_false]
        simp [ownershipEffects, attemptTransfer, destinationOuId, List.filter]

/-- C5: every ownership-transfer mutation in an executor trace — under
either parameter-name variant — targets resource `tracker/ownership/transfer`
as an update, its params carry the session's case id, program id and the
destination under `ou`, and its body mirrors the params' triple. -/
theorem ownership_mutation_shape (s : SessionState) (env : TransferEnv)
    (res ty : String) (ps : OwnershipParams) (body : OwnershipBody)
    (hmem : Effect.mutateOwnership res ty ps body ∈ (handleTransfer s env).2) :
    res = "tracker/ownership/transfer" ∧ ty = "update" ∧
    ps.caseId = s.teiId ∧ ps.program = s.programId ∧ ps.ou = destinationOuId s ∧
    body.trackedEntity = ps.caseId ∧ body.program = ps.program ∧
    body.orgUnit = ps.ou := by
  have hown : Effect.mutateOwnership res ty ps body ∈
      ownershipEffects (handleTransfer s env).2 :=
    List.mem_filter.mpr ⟨hmem, rfl⟩
  rcases ownershipEffects_handleTransfer s env with h | h | h <;> rw [h] at hown
  · cases hown
  · have heq := List.mem_singleton.mp hown
    unfold attemptTransfer at heq
    injection heq with hres hty hps hbody
    subst hres; subst hty; subst hps; subst hbody
    exact ⟨rfl, rfl, rfl, rfl, rfl, rfl, rfl, rfl⟩
  · rcases List.mem_cons.mp hown with heq | hown2
    · unfold attemptTransfer at heq
      injection heq with hres hty hps hbody
      subst hres; subst hty; subst hps; subst hbody
      exact ⟨rfl, rfl, rfl, rfl, rfl, rfl, rfl, rfl⟩
    · have heq := List.mem_singleton.mp hown2
      unfold attemptTransfer at heq
      injection heq with hres hty hps hbody
      subst hres; subst hty; subst hps; subst hbody
      exact ⟨rfl, rfl, rfl, rfl, rfl, rfl, rfl, rfl⟩

/-- Witness for C5: the ownership mutation of a concrete successful run
has the required resource, verb, params and mirrored body. -/
theorem ownership_mutation_shape_witness :
    (Effect.mutateOwnership "tracker/ownership/transfer" "update"
       { caseParam := ParamVariant.trackedEntity, caseId := "T1",
         program := "P1", ou := "B" }
       { trackedEntity := "T1", program := "P1", orgUnit := "B" } ∈
       (handleTransfer witnessSession cascadeWitnessEnv).2) ∧
    ("tracker/ownership/transfer" = "tracker/ownership/transfer" ∧
     "update" = "update" ∧
     ({ caseParam := ParamVariant.trackedEntity, caseId := "T1",
        program := "P1", ou := "B" } : OwnershipParams).caseId =
       witnessSession.teiId ∧
     ({ caseParam := ParamVariant.trackedEntity, caseId := "T1",
        program := "P1", ou := "B" } : OwnershipParams).program =
       witnessSession.programId ∧
     ({ caseParam := ParamVariant.trackedEntity, caseId := "T1",
        program := "P1", ou := "B" } : OwnershipParams).ou =
       destinationOuId witnessSession ∧
     ({ trackedEntity := "T1", program := "P1", orgUnit := "B" } :
        OwnershipBody).trackedEntity =
       ({ caseParam := ParamVariant.trackedEntity, caseId := "T1",
          program := "P1", ou := "B" } : OwnershipParams).caseId ∧
     ({ trackedEntity := "T1", program := "P1", orgUnit := "B" } :
        OwnershipBody).program =
       ({ caseParam := ParamVariant.trackedEntity, caseId := "T1",
          program := "P1", ou := "B" } : OwnershipParams).program ∧
     ({ trackedEntity := "T1", program := "P1", orgUnit := "B" } :
        OwnershipBody).orgUnit =
       ({ caseParam := ParamVariant.trackedEntity, caseId := "T1",
          program := "P1", ou := "B" } : OwnershipParams).ou) :=
  ⟨by decide,
   ownership_mutation_shape witnessSession cascadeWitnessEnv _ _ _ _ (by decide)⟩

/-- C1: the transfer action is enabled if and only if the case id, program
id and destination org unit id are all non-empty, the destination id
differs from the current location id, and no submission is in progress. -/
theorem transfer_enabled_iff (s : SessionState) :
    isTransferEnabled s = true ↔
      (s.teiId ≠ "" ∧ s.programId ≠ "" ∧ destinationOuId s ≠ "" ∧
       destinationOuId s ≠ s.currentOuId ∧ s.isSubmitting = false) := by
  constructor
  · intro hEn
    have ht : s.teiId ≠ "" := by
      intro h; simp [isTransferEnabled, h] at hEn
    have hp : s.programId ≠ "" := by
      intro h; simp [isTransferEnabled, h] at hEn
    have hd : destinationOuId s ≠ "" := by
      intro h; simp [isTransferEnabled, h] at hEn
    have hsub : s.isSubmitting = false := by
      cases h : s.isSubmitting
      · rfl
      · simp [isTransferEnabled, h] at hEn
    have hne : destinationOuId s ≠ s.currentOuId := by
      intro h
      have hsame : isSameOrgUnit s = true := by
        simp [isSameOrgUnit, ← h, hd]
      simp [isTransferEnabled, hsame] at hEn
    exact ⟨ht, hp, hd, hne, hsub⟩
  · rintro ⟨ht, hp, hd, hne, hsub⟩
    have hc : (s.currentOuId == destinationOuId s) = false := by
      refine beq_eq_false_iff_ne.mpr ?_
      intro h
      exact hne h.symm
    have hsame : isSameOrgUnit s = false := by
      simp [isSameOrgUnit, hc]
    simp [isTransferEnabled, ht, hp, hd, hsame, hsub]

/-- C10: when the current location id is empty (unknown), the
destination-unchanged check is vacuous: any non-empty destination together
with non-empty case and program ids and no submission in progress enables
the transfer. -/
theorem enabled_when_current_unknown (s : SessionState) (hc : s.currentOuId = "")
    (ht : s.teiId ≠ "") (hp : s.programId ≠ "") (hd : destinationOuId s ≠ "")
    (hs : s.isSubmitting = false) : isTransferEnabled s = true := by
  have hsame : isSameOrgUnit s = false := by simp [isSameOrgUnit, hc]
  simp [isTransferEnabled, ht, hp, hd, hsame, hs]

/-- Witness for C10: destination "A" with the current location unknown
(even though the case may in fact live at "A") enables the transfer. -/
theorem enabled_when_current_unknown_witness :
    (({ teiId := "T1", programId := "P1", selectedOuId := some "A",
        currentOuId := "" } : SessionState).currentOuId = "" ∧
      destinationOuId { teiId := "T1", programId := "P1",
                        selectedOuId := some "A", currentOuId := "" } ≠ "") ∧
    isTransferEnabled { teiId := "T1", programId := "P1",
                        selectedOuId := some "A", currentOuId := "" } = true :=
  ⟨⟨rfl, by decide⟩,
    enabled_when_current_unknown _ rfl (by decide) (by decide) (by decide) rfl⟩

/-- C8: with the submitting flag set the transfer button is disabled, so a
click issues no ownership-transfer mutation (no effect at all) and leaves
the session state untouched. -/
theorem submitting_blocks_click (s : SessionState) (env : TransferEnv)
    (h : s.isSubmitting = true) : transferButtonClick s env = (s, []) := by
  have hEn : isTransferEnabled s = false := by simp [isTransferEnabled, h]
  simp [transferButtonClick, hEn]

/-- Witness for C8: a state that satisfies every other precondition but is
submitting yields no effects when the transfer action is invoked. -/
theorem submitting_blocks_click_witness :
    ({ teiId := "T1", programId := "P1", selectedOuId := some "B", currentOuId := "A",
       isSubmitting := true } : SessionState).isSubmitting = true ∧
    transferButtonClick
      { teiId := "T1", programId := "P1", selectedOuId := some "B", currentOuId := "A",
        isSubmitting := true }
      { primaryOutcome := Except.ok (), retryOutcome := Except.ok (),
        refetchOutcome := Except.ok { trackedEntity := "T1" },
        enrollmentImportOutcome := Except.ok (),
        eventImportOutcome := Except.ok () } =
      ({ teiId := "T1", programId := "P1", selectedOuId := some "B",
         currentOuId := "A", isSubmitting := true }, []) :=
  ⟨rfl, submitting_blocks_click _ _ rfl⟩

/-- C9: a debounced query whose trimmed text is below the minimum search
length issues no request (the generation counter does not move and no run
is active) and clears the results, the error and the spinner. -/
theorem below_min_no_request (s : SearchState) (q : String)
    (h : (strTrim q).length < MIN_SEARCH_LENGTH) :
    searchStep s (SearchAction.newQuery q) =
      { s with activeGen := none, searchResults := [], searchError := none,
               isSearching := false } := by
  simp [searchStep, h]

/-- Witness for C9: the one-letter query " a " is below the threshold and
resets the search state without issuing a request. -/
theorem below_min_no_request_witness :
    ((strTrim " a ").length < MIN_SEARCH_LENGTH) ∧
    searchStep { currentGen := 3, activeGen := some 3,
                 searchResults := [{ id := "X", displayName := "X" }],
                 searchError := some "boom", isSearching := true }
      (SearchAction.newQuery " a ") =
      { currentGen := 3, activeGen := none, searchResults := [],
        searchError := none, isSearching := false } :=
  ⟨by decide, below_min_no_request _ _ (by decide)⟩

/-- C6 (counterexample): picking a search result does not clear the tree's
path selection — the handler sets it to the single picked id, so the claim
as stated fails at a concrete input. -/
theorem pick_search_result_counterexample :
    ¬ ((pickSearchResult { selectedPaths := ["rootOu"] }
          { id := "ouX", displayName := "Clinic X" }).selectedOuId = some "ouX" ∧
       (pickSearchResult { selectedPaths := ["rootOu"] }
          { id := "ouX", displayName := "Clinic X" }).selectedPaths = [] ∧
       (pickSearchResult { selectedPaths := ["rootOu"] }
          { id := "ouX", displayName := "Clinic X" }).searchText = "Clinic X" ∧
       (pickSearchResult { selectedPaths := ["rootOu"] }
          { id := "ouX", displayName := "Clinic X" }).searchResults = []) := by
  decide

/-- C6 (amended): picking a search result sets the destination id to the
picked org unit's id, replaces the tree's path selection with the
single-element selection holding that id, populates the free-text field
with the chosen display name, and empties the results list. -/
theorem pick_search_result_updates (s : SessionState) (orgUnit : OrgUnit) :
    (pickSearchResult s orgUnit).selectedOuId = some orgUnit.id ∧
    (pickSearchResult s orgUnit).selectedPaths = [orgUnit.id] ∧
    (pickSearchResult s orgUnit).searchText = orgUnit.displayName ∧
    (pickSearchResult s orgUnit).searchResults = [] :=
  ⟨rfl, rfl, rfl, rfl⟩

/-- Every step preserves the search invariant. -/
lemma searchStep_inv (s : SearchState) (a : SearchAction)
    (h : searchInv s = true) : searchInv (searchStep s a) = true := by
  cases a with
  | newQuery q =>
    by_cases hq : (strTrim q).length < MIN_SEARCH_LENGTH
    · simp [searchStep, hq, searchInv]
    · simp [searchStep, hq, searchInv]
  | teardown => simp [searchStep, searchInv]
  | resolve g out =>
    cases hgb : (s.activeGen == some g) with
    | false => simpa [searchStep, hgb] using h
    | true => cases out <;> simpa [searchStep, hgb, searchInv] using h

/-- Resolutions never move the generation counter or the active run. -/
lemma resolve_preserves_gens (s : SearchState) (g2 : Nat) (out : SearchOutcome) :
    (searchStep s (SearchAction.resolve g2 out)).activeGen = s.activeGen ∧
    (searchStep s (SearchAction.resolve g2 out)).currentGen = s.currentGen := by
  cases hgb : (s.activeGen == some g2) with
  | false => simp [searchStep, hgb]
  | true => cases out <;> simp [searchStep, hgb]

/-- Once a request is stale it stays stale under every further action. -/
lemma staleFor_step (g : Nat) (s : SearchState) (a : SearchAction)
    (h : staleFor g s) : staleFor g (searchStep s a) := by
  obtain ⟨hle, hne⟩ := h
  cases a with
  | newQuery q =>
    by_cases hq : (strTrim q).length < MIN_SEARCH_LENGTH
    · exact ⟨by simpa [searchStep, hq] using hle, by simp [searchStep, hq]⟩
    · constructor
      · simp [searchStep, hq]
        omega
      · simp [searchStep, hq]
        omega
  | teardown => exact ⟨hle, by simp [searchStep]⟩
  | resolve g2 out =>
    refine ⟨?_, ?_⟩
    · rw [(resolve_preserves_gens s g2 out).2]; exact hle
    · rw [(resolve_preserves_gens s g2 out).1]; exact hne
/-- A query change or a teardown makes the in-flight request stale. -/
lemma supersede_staleFor (g : Nat) (s : SearchState) (a : SearchAction)
    (hle : g ≤ s.currentGen) (hsup : isSupersede a = true) :
    staleFor g (searchStep s a) := by
  cases a with
  | newQuery q =>
    by_cases hq : (strTrim q).length < MIN_SEARCH_LENGTH
    · exact ⟨by simpa [searchStep, hq] using hle, by simp [searchStep, hq]⟩
    · constructor
      · simp [searchStep, hq]
        omega
      · simp [searchStep, hq]
        omega
  | teardown => exact ⟨hle, by simp [searchStep]⟩
  | resolve g2 out => simp [isSupersede] at hsup

/-- Staleness persists along any run. -/
lemma staleFor_run (g : Nat) (acts : List SearchAction) (s : SearchState)
    (h : staleFor g s) : staleFor g (searchRun s acts) := by
  induction acts generalizing s with
  | nil => exact h
  | cons a rest ih => exact ih _ (staleFor_step g s a h)

/-- C7: a search request whose owning query changed or whose session was
torn down before it resolved never commits: after any action sequence
containing a supersede, resolving the previously in-flight request — with
any response — leaves the search state (results, error, spinner)
unchanged. -/
theorem stale_search_never_commits (s : SearchState) (acts : List SearchAction)
    (g : Nat) (out : SearchOutcome) (hinv : searchInv s = true)
    (hg : s.activeGen = some g)
    (hsup : ∃ a ∈ acts, isSupersede a = true) :
    searchStep (searchRun s acts) (SearchAction.resolve g out) =
      searchRun s acts := by
  have hstale : ∀ t : SearchState, searchInv t = true → t.activeGen = some g →
      (∃ a ∈ acts, isSupersede a = true) → staleFor g (searchRun t acts) := by
    clear hinv hg hsup
    induction acts with
    | nil =>
      intro t _ _ hsup2
      rcases hsup2 with ⟨a, ha, _⟩
      cases ha
    | cons a rest ih =>
      intro t hinv2 hg2 hsup2
      have hle : g ≤ t.currentGen := by
        unfold searchInv at hinv2
        rw [hg2] at hinv2
        exact Nat.le_of_eq (beq_iff_eq.mp hinv2)
      by_cases hs : isSupersede a = true
      · exact staleFor_run g rest _ (supersede_staleFor g t a hle hs)
      · have hg3 : (searchStep t a).activeGen = some g := by
          cases a with
          | newQuery q => simp [isSupersede] at hs
          | teardown => simp [isSupersede] at hs
          | resolve g2 o => rw [(resolve_preserves_gens t g2 o).1]; exact hg2
        have hsup3 : ∃ x ∈ rest, isSupersede x = true := by
          rcases hsup2 with ⟨x, hx, hxs⟩
          rcases List.mem_cons.mp hx with rfl | hx2
          · exact absurd hxs hs
          · exact ⟨x, hx2, hxs⟩
        exact ih (searchStep t a) (searchStep_inv t a hinv2) hg3 hsup3
  have hne := (hstale s hinv hg hsup).2
  have hb : ((searchRun s acts).activeGen == some g) = false :=
    beq_eq_false_iff_ne.mpr hne
  simp [searchStep, hb]

/-- Witness for C7: request 1 is in flight, the query then changes, and a
late resolution of request 1 (with results) changes nothing. -/
theorem stale_search_never_commits_witness :
    (searchInv staleWitnessStart = true ∧
     staleWitnessStart.activeGen = some 1 ∧
     (∃ a ∈ staleWitnessActs, isSupersede a = true)) ∧
    searchStep (searchRun staleWitnessStart staleWitnessActs)
        (SearchAction.resolve 1
          (SearchOutcome.ok (some [{ id := "X", displayName := "X" }]))) =
      searchRun staleWitnessStart staleWitnessActs :=
  ⟨⟨by decide, rfl, by decide⟩,
   stale_search_never_commits staleWitnessStart staleWitnessActs 1 _
     (by decide) rfl (by decide)⟩

end TeiTransfer
